import Mathlib

/-!
Shallow embedding of the tecton-quickstarts repository: data-source,
feature-view and feature-service descriptors, together with the executable
row-level and on-demand transforms declared in `src/`.

Numeric feature values (Python `float`) are modelled as rationals `ℚ`:
every comparison appearing in the repository is exact on the inputs the
spec discusses.  Python dictionaries are modelled as association lists with
`Option`-valued lookup, so a `KeyError` surfaces as `none`.
-/

namespace Tecton

/-- A typed field declaration (`tecton.types.Field`); the type is kept as a
tag string (`String`, `Timestamp`, `Float64`, `Bool`). -/
structure FieldDecl where
  name : String
  dtype : String
deriving DecidableEq, Repr

/-- Batch file configuration (`tecton.FileConfig`). -/
structure FileConfig where
  uri : String
  file_format : String
  timestamp_field : String
deriving DecidableEq, Repr

/-- A batch data source (`tecton.BatchSource`). -/
structure BatchSource where
  name : String
  batch_config : FileConfig
deriving DecidableEq, Repr

/-- A stream data source (`tecton.StreamSource`) with a push-based stream
config, a batch fallback and an explicit schema. -/
structure StreamSource where
  name : String
  push : Bool
  batch_config : FileConfig
  schema : List FieldDecl
deriving DecidableEq, Repr

/-- Modelled from the spec: `entities.py` is imported by every feature view
but is not present under `src/`; the spec describes an Entity as a name
with join key field name(s), the user identifier being the join key used
throughout the schemas (`user_id`). -/
structure Entity where
  name : String
  join_keys : List String
deriving DecidableEq, Repr

/-- Modelled from the spec: the `user` entity declared in the missing
`entities.py`, keyed by the user identifier column `user_id`. -/
def user : Entity := { name := "user", join_keys := ["user_id"] }

/-- An aggregation declaration (`tecton.Aggregation`): function name,
source column and time window in seconds. -/
structure Aggregation where
  function : String
  column : String
  time_window : Nat
deriving DecidableEq, Repr

/-- Seconds in a `timedelta(days := d)`. -/
def timedelta_days (d : Nat) : Nat := d * 86400

/-- Seconds in a `timedelta(hours := h)`. -/
def timedelta_hours (h : Nat) : Nat := h * 3600

/-- Seconds in a `timedelta(minutes := m)`. -/
def timedelta_minutes (m : Nat) : Nat := m * 60

/-- `src/data_sources/users.py`: the `users` batch source. -/
def users : BatchSource :=
  { name := "users",
    batch_config :=
      { uri := "s3://mft-porter-data/tutorials/users.pq",
        file_format := "parquet",
        timestamp_field := "timestamp" } }

/-- `src/data_sources/transactions_batch.py`: the `transactions_batch`
batch source. -/
def transactions_batch : BatchSource :=
  { name := "transactions_batch",
    batch_config :=
      { uri := "s3://mft-porter-data/tutorials/transactions.pq",
        file_format := "parquet",
        timestamp_field := "timestamp" } }

/-- `src/data_sources/transactions_stream.py`: the `transactions_stream`
stream source with push config and explicit schema. -/
def transactions_stream : StreamSource :=
  { name := "transactions_stream",
    push := true,
    batch_config :=
      { uri := "s3://mft-porter-data/tutorials/transactions.pq",
        file_format := "parquet",
        timestamp_field := "timestamp" },
    schema :=
      [ { name := "user_id", dtype := "String" },
        { name := "timestamp", dtype := "Timestamp" },
        { name := "amount", dtype := "Float64" } ] }

/-- A materialized (batch or stream) feature-view descriptor: the
declarative arguments of `@batch_feature_view` / `@stream_feature_view`,
together with `returned_columns`, the column projection performed by the
decorated transform body. -/
structure MaterializedFeatureView where
  name : String
  source_name : String
  entities : List Entity
  schema : List FieldDecl
  aggregations : List Aggregation
  aggregation_interval : Option Nat
  online : Bool
  offline : Bool
  returned_columns : List String
deriving DecidableEq, Repr

/-- `src/features/user_transaction_metrics.py`: batch feature view with six
mean/count aggregations of `amount` over 1, 3 and 7 days, aggregation
interval one day; its transform returns
`transactions[[user_id, timestamp, amount]]`. -/
def user_transaction_metrics : MaterializedFeatureView :=
  { name := "user_transaction_metrics",
    source_name := "transactions_batch",
    entities := [user],
    schema :=
      [ { name := "user_id", dtype := "String" },
        { name := "timestamp", dtype := "Timestamp" },
        { name := "amount", dtype := "Float64" } ],
    aggregations :=
      [ ⟨"mean", "amount", timedelta_days 1⟩,
        ⟨"mean", "amount", timedelta_days 3⟩,
        ⟨"mean", "amount", timedelta_days 7⟩,
        ⟨"count", "amount", timedelta_days 1⟩,
        ⟨"count", "amount", timedelta_days 3⟩,
        ⟨"count", "amount", timedelta_days 7⟩ ],
    aggregation_interval := some (timedelta_days 1),
    online := true,
    offline := true,
    returned_columns := ["user_id", "timestamp", "amount"] }

/-- `src/features/user_transaction_amount_totals.py`: stream feature view
with three sum aggregations of `amount` over 1 minute, 1 hour and 30 days;
its transform returns `transactions[[user_id, timestamp, amount]]`. -/
def user_transaction_amount_totals : MaterializedFeatureView :=
  { name := "user_transaction_amount_totals",
    source_name := "transactions_stream",
    entities := [user],
    schema :=
      [ { name := "user_id", dtype := "String" },
        { name := "timestamp", dtype := "Timestamp" },
        { name := "amount", dtype := "Float64" } ],
    aggregations :=
      [ ⟨"sum", "amount", timedelta_minutes 1⟩,
        ⟨"sum", "amount", timedelta_hours 1⟩,
        ⟨"sum", "amount", timedelta_days 30⟩ ],
    aggregation_interval := none,
    online := true,
    offline := true,
    returned_columns := ["user_id", "timestamp", "amount"] }

/-- `src/features/user_credit_card_issuer.py`: batch feature view over the
`users` source; its transform derives `credit_card_issuer` and returns
`users[[user_id, signup_timestamp, credit_card_issuer]]`. -/
def user_credit_card_issuer : MaterializedFeatureView :=
  { name := "user_credit_card_issuer",
    source_name := "users",
    entities := [user],
    schema :=
      [ { name := "user_id", dtype := "String" },
        { name := "signup_timestamp", dtype := "Timestamp" },
        { name := "credit_card_issuer", dtype := "String" } ],
    aggregations := [],
    aggregation_interval := none,
    online := true,
    offline := true,
    returned_columns := ["user_id", "signup_timestamp", "credit_card_issuer"] }

/-- The nested conditional of `user_credit_card_issuer`, applied to the
first character of `str(cc_num)`. -/
def issuerOfFirstChar (c : Char) : String :=
  if c = '4' then "Visa"
  else if c = '5' then "MasterCard"
  else if c = '6' then "Discover"
  else "other"

/-- `str(x)[0]` dispatch of `user_credit_card_issuer`: `none` models the
`IndexError` Python raises on an empty string. -/
def creditCardIssuerOf (ccNum : String) : Option String :=
  match ccNum.data with
  | [] => none
  | c :: _ => some (issuerOfFirstChar c)

/-- An input row of the `users` source as consumed by
`user_credit_card_issuer` (the credit card number in its string form). -/
structure UserRow where
  user_id : String
  signup_timestamp : Int
  cc_num : String
deriving DecidableEq, Repr

/-- An output row of `user_credit_card_issuer`. -/
structure UserIssuerRow where
  user_id : String
  signup_timestamp : Int
  credit_card_issuer : String
deriving DecidableEq, Repr

/-- The row-level transform of `user_credit_card_issuer`: derive the
issuer from `cc_num` and project
`[user_id, signup_timestamp, credit_card_issuer]`. -/
def user_credit_card_issuer_row (r : UserRow) : Option UserIssuerRow :=
  (creditCardIssuerOf r.cc_num).map fun issuer =>
    { user_id := r.user_id,
      signup_timestamp := r.signup_timestamp,
      credit_card_issuer := issuer }

/-- The dataframe-level transform of `user_credit_card_issuer`: apply the
row transform to every row (`none` if any row fails). -/
def user_credit_card_issuer_transform (rows : List UserRow) :
    Option (List UserIssuerRow) :=
  rows.mapM user_credit_card_issuer_row

/-- Dictionary lookup on an association list; `none` models a Python
`KeyError`. -/
def dictLookup {α : Type} (k : String) (d : List (String × α)) : Option α :=
  (d.find? fun p => p.1 == k).map Prod.snd

/-- Python `x or 0` on an `Optional[float]`: both `None` and a float equal
to `0` are falsy and are replaced by the default `0`. -/
def pyFloatOrZero : Option ℚ → ℚ
  | none => 0
  | some x => if x = 0 then 0 else x

/-- A request source declaration (`tecton.RequestSource`). -/
structure RequestSource where
  schema : List FieldDecl
deriving DecidableEq, Repr

/-- `src/features/transaction_amount_is_higher_than_average.py`: the
request source with single field `amount`. -/
def transaction_request : RequestSource :=
  { schema := [ { name := "amount", dtype := "Float64" } ] }

/-- An on-demand feature-view descriptor: the declarative arguments of
`@on_demand_feature_view`. -/
structure OnDemandFeatureView where
  name : String
  sources : List String
  schema : List FieldDecl
deriving DecidableEq, Repr

/-- `src/features/transaction_amount_is_higher_than_average.py`: the
on-demand view descriptor (sources: the request source and
`user_transaction_metrics`; output schema: one Bool field). -/
def transaction_amount_is_higher_than_average_view : OnDemandFeatureView :=
  { name := "transaction_amount_is_higher_than_average",
    sources := ["transaction_request", "user_transaction_metrics"],
    schema :=
      [ { name := "transaction_amount_is_higher_than_average", dtype := "Bool" } ] }

/-- The body of `transaction_amount_is_higher_than_average`: read the
upstream `amount_mean_1d_1d` (an `Optional[float]`), coalesce it with
`or 0`, read the request `amount`, and return the comparison in a
single-key dictionary.  A missing key in either input dictionary is a
`KeyError`, modelled as `none`. -/
def transaction_amount_is_higher_than_average
    (transaction_request : List (String × ℚ))
    (user_transaction_metrics_row : List (String × Option ℚ)) :
    Option (List (String × Bool)) :=
  match dictLookup "amount_mean_1d_1d" user_transaction_metrics_row with
  | none => none
  | some v =>
    match dictLookup "amount" transaction_request with
    | none => none
    | some amount =>
      some [("transaction_amount_is_higher_than_average",
             decide (amount > pyFloatOrZero v))]

/-- The on-demand evaluation threaded through an arbitrary ambient state:
the body touches no state, so the state passes through unchanged. -/
def transaction_amount_is_higher_than_average_st {σ : Type} (s : σ)
    (req : List (String × ℚ)) (utm : List (String × Option ℚ)) :
    σ × Option (List (String × Bool)) :=
  (s, transaction_amount_is_higher_than_average req utm)

/-- A feature service (`tecton.FeatureService`): a name and the ordered
list of referenced feature-definition names. -/
structure FeatureService where
  name : String
  features : List String
deriving DecidableEq, Repr

/-- `src/feature_services/fraud_detection_feature_service.py`: the v1
service. -/
def fraud_detection_feature_service : FeatureService :=
  { name := "fraud_detection_feature_service",
    features := [user_transaction_metrics.name] }

/-- `src/feature_services/fraud_detection_feature_service.py`: the v2
service bundling four feature definitions. -/
def fraud_detection_feature_service_v2 : FeatureService :=
  { name := "fraud_detection_feature_service:v2",
    features :=
      [ user_transaction_amount_totals.name,
        user_transaction_metrics.name,
        transaction_amount_is_higher_than_average_view.name,
        user_credit_card_issuer.name ] }

/-- `src/feature_services/fraud_detection_feature_service.py`: the
streaming service. -/
def fraud_detection_feature_service_streaming : FeatureService :=
  { name := "fraud_detection_feature_service_streaming",
    features := [user_transaction_amount_totals.name] }

/-- The names of all feature definitions declared in the repository. -/
def repository_feature_definition_names : List String :=
  [ user_transaction_metrics.name,
    user_credit_card_issuer.name,
    user_transaction_amount_totals.name,
    transaction_amount_is_higher_than_average_view.name ]

/-- Render a duration in seconds at the coarsest exact granularity
(`1d`, `3h`, `30m`, `45s`). -/
def durationSuffix (secs : Nat) : String :=
  if secs ≥ 86400 ∧ secs % 86400 = 0 then toString (secs / 86400) ++ "d"
  else if secs ≥ 3600 ∧ secs % 3600 = 0 then toString (secs / 3600) ++ "h"
  else if secs ≥ 60 ∧ secs % 60 = 0 then toString (secs / 60) ++ "m"
  else toString secs ++ "s"

/-- Modelled from the spec: the platform-side synthesis of an aggregate
output field name is not in `src/`; the spec describes it as a
deterministic function of the (function, column, window) triple producing
names like `amount_mean_1d`, and the repository itself references the
synthesized name `amount_mean_1d_1d` (column, function, window, then the
view's aggregation interval when one is declared). -/
def aggFeatureName (interval : Option Nat) (a : Aggregation) : String :=
  a.column ++ "_" ++ a.function ++ "_" ++ durationSuffix a.time_window ++
    (match interval with
     | some i => "_" ++ durationSuffix i
     | none => "")

/-- The synthesized output field names of a materialized feature view, one
per declared aggregation, in declaration order. -/
def synthesizedNames (v : MaterializedFeatureView) : List String :=
  v.aggregations.map (aggFeatureName v.aggregation_interval)

/-- C1: `transaction_amount_is_higher_than_average` applied to a request
with `amount = 100` and an upstream record whose `amount_mean_1d_1d` is
`None` returns the single-key dictionary mapping
`transaction_amount_is_higher_than_average` to `True`; applied to
`amount = 100` with `amount_mean_1d_1d = 150` it returns `False`. -/
theorem claim1_on_demand_examples :
    transaction_amount_is_higher_than_average
      [("amount", 100)] [("amount_mean_1d_1d", none)] =
      some [("transaction_amount_is_higher_than_average", true)] ∧
    transaction_amount_is_higher_than_average
      [("amount", 100)] [("amount_mean_1d_1d", some 150)] =
      some [("transaction_amount_is_higher_than_average", false)] := by
  decide

/-- C2: the row-level transform of `user_credit_card_issuer` maps a row
with `cc_num = 4111111111111111` to `credit_card_issuer = Visa`, a row
with `cc_num = 6011000000000000` to `Discover`, and a row with
`cc_num = 9999999999999999` to `other`. -/
theorem claim2_issuer_row_examples :
    user_credit_card_issuer_row ⟨"u1", 0, "4111111111111111"⟩ =
      some ⟨"u1", 0, "Visa"⟩ ∧
    user_credit_card_issuer_row ⟨"u2", 0, "6011000000000000"⟩ =
      some ⟨"u2", 0, "Discover"⟩ ∧
    user_credit_card_issuer_row ⟨"u3", 0, "9999999999999999"⟩ =
      some ⟨"u3", 0, "other"⟩ := by
  decide

/-- C3 (counterexample): the claim fails on `user_credit_card_issuer`: the
`users` batch source declares the event-timestamp field `timestamp`, but
that column is not among the columns returned by the view's transform
(which returns `user_id`, `signup_timestamp`, `credit_card_issuer`). -/
theorem claim3_counterexample :
    users.batch_config.timestamp_field = "timestamp" ∧
    users.batch_config.timestamp_field ∉ user_credit_card_issuer.returned_columns := by
  decide

/-- C3 (amended): `user_transaction_metrics` and
`user_transaction_amount_totals` return column sets that include the
entity join key and their data source's declared `timestamp` field;
`user_credit_card_issuer` returns the join key and its schema's event-time
column `signup_timestamp`, but not the `timestamp` field declared by the
`users` batch source. -/
theorem claim3_amended_superset :
    (user.join_keys ⊆ user_transaction_metrics.returned_columns ∧
     transactions_batch.batch_config.timestamp_field ∈
       user_transaction_metrics.returned_columns) ∧
    (user.join_keys ⊆ user_transaction_amount_totals.returned_columns ∧
     transactions_stream.batch_config.timestamp_field ∈
       user_transaction_amount_totals.returned_columns) ∧
    (user.join_keys ⊆ user_credit_card_issuer.returned_columns ∧
     "signup_timestamp" ∈ user_credit_card_issuer.returned_columns ∧
     users.batch_config.timestamp_field ∉
       user_credit_card_issuer.returned_columns) := by
  decide

/-- C4: for every request amount, evaluating
`transaction_amount_is_higher_than_average` with an upstream record whose
`amount_mean_1d_1d` is `None` does not fail: the absent value is replaced
by the neutral default `0` and a boolean result is always returned. -/
theorem claim4_absent_upstream_total :
    ∀ amount : ℚ,
      transaction_amount_is_higher_than_average
        [("amount", amount)] [("amount_mean_1d_1d", none)] =
        some [("transaction_amount_is_higher_than_average",
               decide (amount > 0))] :=
  fun _ => rfl

/-- C5: the feature service named `fraud_detection_feature_service:v2`
resolves to exactly the four feature definitions
`user_transaction_amount_totals`, `user_transaction_metrics`,
`transaction_amount_is_higher_than_average`, `user_credit_card_issuer`,
in that order, and each referenced definition exists in the repository. -/
theorem claim5_service_resolution :
    fraud_detection_feature_service_v2.name =
      "fraud_detection_feature_service:v2" ∧
    fraud_detection_feature_service_v2.features =
      [ "user_transaction_amount_totals",
        "user_transaction_metrics",
        "transaction_amount_is_higher_than_average",
        "user_credit_card_issuer" ] ∧
    fraud_detection_feature_service_v2.features ⊆
      repository_feature_definition_names := by
  decide

/-- C6: the synthesized output field name is a function of the
(function, column, time window) triple and the view's aggregation
interval; the six names of `user_transaction_metrics` and the three names
of `user_transaction_amount_totals` are as listed and pairwise distinct
within each definition. -/
theorem claim6_agg_names_distinct :
    synthesizedNames user_transaction_metrics =
      [ "amount_mean_1d_1d", "amount_mean_3d_1d", "amount_mean_7d_1d",
        "amount_count_1d_1d", "amount_count_3d_1d", "amount_count_7d_1d" ] ∧
    (synthesizedNames user_transaction_metrics).Nodup ∧
    synthesizedNames user_transaction_amount_totals =
      [ "amount_sum_1m", "amount_sum_1h", "amount_sum_30d" ] ∧
    (synthesizedNames user_transaction_amount_totals).Nodup := by
  decide

/-- C7: evaluation of `transaction_amount_is_higher_than_average` is pure:
threaded through an arbitrary ambient state, the output is independent of
the state (so identical inputs give identical outputs across invocations)
and the state is returned unchanged. -/
theorem claim7_purity :
    ∀ (σ : Type) (s₁ s₂ : σ) (req : List (String × ℚ))
      (utm : List (String × Option ℚ)),
      (transaction_amount_is_higher_than_average_st s₁ req utm).2 =
        (transaction_amount_is_higher_than_average_st s₂ req utm).2 ∧
      (transaction_amount_is_higher_than_average_st s₁ req utm).1 = s₁ :=
  fun _ _ _ _ _ => ⟨rfl, rfl⟩

/-- C8: the declared schema of the stream source `transactions_stream`
(`user_id`, `timestamp`, `amount`) is a superset of the columns referenced
by the aggregations of `user_transaction_amount_totals`, each of which
references `amount`. -/
theorem claim8_stream_schema_superset :
    user_transaction_amount_totals.aggregations.map Aggregation.column =
      ["amount", "amount", "amount"] ∧
    transactions_stream.schema.map FieldDecl.name =
      ["user_id", "timestamp", "amount"] ∧
    user_transaction_amount_totals.aggregations.map Aggregation.column ⊆
      transactions_stream.schema.map FieldDecl.name := by
  decide

/-- C9: for every request amount, an upstream `amount_mean_1d_1d` present
and equal to `0` behaves exactly like an absent one: the falsy coercion
`x or 0` maps a true mean of `0` to the default, so the result equals
`amount > 0` in both cases. -/
theorem claim9_zero_mean_indistinguishable :
    ∀ amount : ℚ,
      transaction_amount_is_higher_than_average
        [("amount", amount)] [("amount_mean_1d_1d", some 0)] =
        transaction_amount_is_higher_than_average
        [("amount", amount)] [("amount_mean_1d_1d", none)] ∧
      transaction_amount_is_higher_than_average
        [("amount", amount)] [("amount_mean_1d_1d", some 0)] =
        some [("transaction_amount_is_higher_than_average",
               decide (amount > 0))] := by
  intro amount
  constructor <;>
    simp [transaction_amount_is_higher_than_average, dictLookup, pyFloatOrZero]

/-- C10: the issuer classification depends only on the first character of
the card number's string form: a string starting with `4` classifies as
`Visa`, `5` as `MasterCard`, `6` as `Discover`, and any other first
character as `other`, regardless of the string's length or validity. -/
theorem claim10_first_char_only (s : String) (c : Char) (cs : List Char)
    (h : s.data = c :: cs) :
    creditCardIssuerOf s = some (issuerOfFirstChar c) ∧
    issuerOfFirstChar '4' = "Visa" ∧
    issuerOfFirstChar '5' = "MasterCard" ∧
    issuerOfFirstChar '6' = "Discover" ∧
    (c ≠ '4' → c ≠ '5' → c ≠ '6' → issuerOfFirstChar c = "other") := by
  refine ⟨?_, by decide, by decide, by decide, ?_⟩
  · unfold creditCardIssuerOf
    rw [h]
  · intro h4 h5 h6
    simp [issuerOfFirstChar, h4, h5, h6]

/-- C10 witness: the classification theorem applied to the concrete card
numbers `411` (length three, not a valid card number) and `97`. -/
theorem claim10_first_char_only_witness :
    creditCardIssuerOf "411" = some (issuerOfFirstChar '4') ∧
    creditCardIssuerOf "97" = some "other" := by
  refine ⟨(claim10_first_char_only "411" '4' (String.data "11") rfl).1, ?_⟩
  have h := claim10_first_char_only "97" '9' (String.data "7") rfl
  rw [h.1, h.2.2.2.2 (by decide) (by decide) (by decide)]

end Tecton
